import Mathlib

/-
Shallow embedding of tensorflow/compiler/xla/python/shared_device_buffer.cc.

Modelling choices:
  - se::Stream* identities are Nat ids; se::DeviceMemoryBase is a Nat opaque
    region descriptor, with 0 standing for the default (null) DeviceMemoryBase.
  - A Shape is represented by the number of subshapes visited by
    ShapeUtil::ForEachSubshape; the ShapeTree of a ShapedBuffer has exactly one
    slot per subshape, in the same traversal order, so a ShapedBuffer's buffer
    tree is a list of regions of that length.
  - CHECK failures (fatal aborts) are modelled by Option none (or a dedicated
    outcome constructor); blocking on absl Mutex Await is modelled by a
    distinct outcome, never conflated with an abort.
  - Mutex-serialised mutation is modelled by explicit state passing: each
    member function takes the buffer or event value and returns the updated
    value together with its observable outputs.
-/

namespace xla

/-- Completion-event state of BufferDefinitionEvent: the EventPool::Handle is
represented by its sequence number once recorded (none while unset), and
streams_defined_on is the ordered list of stream ids already synchronised. -/
structure BufferDefinitionEvent where
  event : Option Nat
  streams_defined_on : List Nat
  deriving DecidableEq, Repr

/-- EventHasBeenRecorded: whether the underlying event handle is non-null. -/
def BufferDefinitionEvent.EventHasBeenRecorded (e : BufferDefinitionEvent) : Bool :=
  e.event.isSome

/-- SetDefinitionEvent (lines 32-39): CHECK the event is not yet set and the
defined-streams list is empty, then store the handle and seed the list with
the recording stream. Option none models a CHECK failure. -/
def BufferDefinitionEvent.SetDefinitionEvent (e : BufferDefinitionEvent)
    (seq : Nat) (stream : Nat) : Option BufferDefinitionEvent :=
  if e.event.isSome then none
  else if e.streams_defined_on ≠ [] then none
  else some { event := some seq, streams_defined_on := [stream] }

/-- Result of an operation that may block on a mutex condition: blocked means
the condition never becomes true in this single-threaded run. -/
inductive Blocking (α : Type)
  | blocked
  | done (a : α)
  deriving DecidableEq, Repr

/-- Method sequence_number (lines 45-49): takes the lock, CHECKs that the
event has been recorded (a fatal abort when unset, there is no Await here),
then returns the handle's sequence number. Option none models the CHECK
failure. -/
def BufferDefinitionEvent.sequence_number (e : BufferDefinitionEvent) : Option Nat :=
  if e.EventHasBeenRecorded then e.event else none

/-- WaitForEventOnStream (lines 51-69): Await until the event is recorded
(blocked while unset); once recorded, if the stream is already in
streams_defined_on return without issuing anything, otherwise issue one
ThenWaitFor instruction to the stream and append it. The Nat result counts
the ThenWaitFor instructions issued by this call (0 or 1). -/
def BufferDefinitionEvent.WaitForEventOnStream (e : BufferDefinitionEvent)
    (stream : Nat) : Blocking (BufferDefinitionEvent × Nat) :=
  if e.EventHasBeenRecorded then
    if stream ∈ e.streams_defined_on then .done (e, 0)
    else .done ({ e with streams_defined_on := e.streams_defined_on ++ [stream] }, 1)
  else .blocked

/-- DefinedOn (lines 71-83): Await until recorded, then report membership of
the stream in streams_defined_on without modifying it. -/
def BufferDefinitionEvent.DefinedOn (e : BufferDefinitionEvent) (stream : Nat) :
    Blocking Bool :=
  if e.EventHasBeenRecorded then .done (stream ∈ e.streams_defined_on) else .blocked

/-- Element type of usage_events (built at line 250 from the arguments of
ConvertUsageHold): the using stream, the event recorded for that stream
(represented by its sequence number), and the reference_held flag. -/
structure StreamAndEvent where
  stream : Nat
  event : Nat
  reference_held : Bool
  deriving DecidableEq, Repr

/-- State of SharedDeviceBuffer (fields initialised at lines 177-191).
allocator and on_delete_callback record whether the corresponding pointer or
callback is non-null; device_memory is the ordered region list. -/
structure SharedDeviceBuffer where
  allocator : Bool
  device_ordinal : Int
  device_memory : List Nat
  definition_events : List Nat
  in_use : Bool
  usage_holds : Nat
  external_references : Nat
  usage_events : List StreamAndEvent
  on_delete_callback : Bool
  deriving DecidableEq, Repr

/-- Constructor (lines 177-191): stores allocator, ordinal, regions and
definition events, and starts with in_use true, zero holds, zero external
references and an empty usage_events list. -/
def SharedDeviceBuffer.init (allocator : Bool) (device_ordinal : Int)
    (device_memory : List Nat) (definition_events : List Nat)
    (on_delete_callback : Bool) : SharedDeviceBuffer :=
  { allocator := allocator, device_ordinal := device_ordinal,
    device_memory := device_memory, definition_events := definition_events,
    in_use := true, usage_holds := 0, external_references := 0,
    usage_events := [], on_delete_callback := on_delete_callback }

/-- AddUsageHold (lines 208-212): CHECK in_use, then increment usage_holds. -/
def SharedDeviceBuffer.AddUsageHold (b : SharedDeviceBuffer) :
    Option SharedDeviceBuffer :=
  if b.in_use then some { b with usage_holds := b.usage_holds + 1 } else none

/-- DropUsageHold (lines 214-219): CHECK in_use and usage_holds positive,
then decrement usage_holds. -/
def SharedDeviceBuffer.DropUsageHold (b : SharedDeviceBuffer) :
    Option SharedDeviceBuffer :=
  if b.in_use then
    if 0 < b.usage_holds then some { b with usage_holds := b.usage_holds - 1 }
    else none
  else none

/-- AddExternalReference (lines 221-225): CHECK in_use, then increment. -/
def SharedDeviceBuffer.AddExternalReference (b : SharedDeviceBuffer) :
    Option SharedDeviceBuffer :=
  if b.in_use then
    some { b with external_references := b.external_references + 1 }
  else none

/-- DropExternalReference (lines 227-231): CHECK external_references
positive, then decrement; in_use is not checked here. -/
def SharedDeviceBuffer.DropExternalReference (b : SharedDeviceBuffer) :
    Option SharedDeviceBuffer :=
  if 0 < b.external_references then
    some { b with external_references := b.external_references - 1 }
  else none

/-- Modelled from the spec: the comparison on line 243 dereferences the two
BufferDefinitionEvent pointers and applies an operator declared in
shared_device_buffer.h, which is not among the sources here. Per the spec,
event A happens before event B exactly when A's sequence number is less than
B's, so with events represented by their sequence numbers the comparison is
less-than on Nat. -/
def eventLt (a b : Nat) : Bool :=
  a < b

/-- Loop body of ConvertUsageHold (lines 241-250): scan usage_events for an
entry with the same stream; if found, overwrite its event and
reference_held only when the existing event compares strictly less than the
new one, and return; if no entry matches, append a new triple. -/
def mergeUsageEvent : List StreamAndEvent → Nat → Nat → Bool → List StreamAndEvent
  | [], s, e, r => [{ stream := s, event := e, reference_held := r }]
  | x :: xs, s, e, r =>
    if x.stream = s then
      if eventLt x.event e then { stream := s, event := e, reference_held := r } :: xs
      else x :: xs
    else x :: mergeUsageEvent xs s e r

/-- ConvertUsageHold (lines 233-251): CHECK in_use and usage_holds positive,
decrement usage_holds, then merge the (stream, event, reference_held) triple
into usage_events. -/
def SharedDeviceBuffer.ConvertUsageHold (b : SharedDeviceBuffer)
    (usage_stream : Nat) (event : Nat) (reference_held : Bool) :
    Option SharedDeviceBuffer :=
  if b.in_use then
    if 0 < b.usage_holds then
      some { b with usage_holds := b.usage_holds - 1,
                    usage_events :=
                      mergeUsageEvent b.usage_events usage_stream event reference_held }
    else none
  else none

/-- Outcome of LockUseAndTransferUsageEvents: checkFail for the CHECK(in_use)
abort, blocked while the Await condition usage_holds == 0 is false, ok with
the transferred events and the post-state otherwise. -/
inductive LockOutcome
  | checkFail
  | blocked
  | ok (events : List StreamAndEvent) (buffer : SharedDeviceBuffer)
  deriving DecidableEq, Repr

/-- LockUseAndTransferUsageEvents (lines 253-265): CHECK in_use, Await until
usage_holds reaches zero, set in_use to false and move usage_events out,
leaving the member empty. -/
def SharedDeviceBuffer.LockUseAndTransferUsageEvents (b : SharedDeviceBuffer) :
    LockOutcome :=
  if b.in_use then
    if b.usage_holds = 0 then
      .ok b.usage_events { b with in_use := false, usage_events := [] }
    else .blocked
  else .checkFail

/-- Source side of FromScopedShapedBuffer: a ScopedShapedBuffer with its
shapes (each represented by its ForEachSubshape count), allocator presence,
device ordinal, and the ShapeTree of regions in traversal order. -/
structure ScopedShapedBuffer where
  on_host_shape : Nat
  on_device_shape : Nat
  memory_allocator : Bool
  device_ordinal : Int
  buffers : List Nat
  deriving DecidableEq, Repr

/-- Result type of AsShapedBuffer: a ShapedBuffer carrying its shapes,
platform, device ordinal and the ShapeTree of regions in traversal order. -/
structure ShapedBuffer where
  on_host_shape : Nat
  on_device_shape : Nat
  platform : Nat
  device_ordinal : Int
  buffers : List Nat
  deriving DecidableEq, Repr

/-- Extraction loop of FromScopedShapedBuffer (lines 101-113): ForEachSubshape
drives n iterations over the source's buffer tree iterator; each iteration
CHECKs the iterator has not reached the end, copies the region out and
overwrites the slot with a default DeviceMemoryBase (0), and after the loop a
CHECK requires the iterator to be exactly exhausted. Returns the extracted
regions and the cleared source tree. -/
def extractBuffers : Nat → List Nat → Option (List Nat × List Nat)
  | 0, [] => some ([], [])
  | 0, _ :: _ => none
  | _ + 1, [] => none
  | n + 1, x :: xs =>
    (extractBuffers n xs).map (fun p => (x :: p.1, 0 :: p.2))

/-- FromScopedShapedBuffer (lines 96-118): extract the source's regions in
subshape order (clearing them from the source) and build a new buffer with
the source's allocator and device ordinal, the supplied definition events and
a null on_delete_callback. The pair also returns the mutated source. -/
def SharedDeviceBuffer.FromScopedShapedBuffer (shaped_buffer : ScopedShapedBuffer)
    (definition_events : List Nat) :
    Option (SharedDeviceBuffer × ScopedShapedBuffer) :=
  (extractBuffers shaped_buffer.on_device_shape shaped_buffer.buffers).map
    (fun p =>
      (SharedDeviceBuffer.init shaped_buffer.memory_allocator
        shaped_buffer.device_ordinal p.1 definition_events false,
       { shaped_buffer with buffers := p.2 }))

/-- Fill loop of AsShapedBuffer (lines 125-132): iterate over the buffer's
device_memory regions, each step CHECKing the target tree iterator has not
reached the end and writing the region into the slot; after the loop a CHECK
requires the iterator to be exactly exhausted. -/
def fillSlots : List Nat → List Nat → Option (List Nat)
  | [], [] => some []
  | [], _ :: _ => none
  | _ :: _, [] => none
  | _ :: slots, buf :: bufs => (fillSlots slots bufs).map (fun l => buf :: l)

/-- AsShapedBuffer (lines 120-134): construct a ShapedBuffer for the given
host and device shapes (its tree has one default slot per subshape of the
device shape) and populate the slots in order from device_memory. -/
def SharedDeviceBuffer.AsShapedBuffer (b : SharedDeviceBuffer)
    (on_host_shape on_device_shape platform : Nat) : Option ShapedBuffer :=
  (fillSlots (List.replicate on_device_shape 0) b.device_memory).map
    (fun slots =>
      { on_host_shape := on_host_shape, on_device_shape := on_device_shape,
        platform := platform, device_ordinal := b.device_ordinal,
        buffers := slots })

/-- State-passing form of the const method AsShapedBuffer: the C++ body reads
device_memory_ and device_ordinal_ and mutates only the local shaped_buffer,
so threading the buffer through the call returns it as the post-state. -/
def SharedDeviceBuffer.AsShapedBufferCall (b : SharedDeviceBuffer)
    (on_host_shape on_device_shape platform : Nat) :
    Option ShapedBuffer × SharedDeviceBuffer :=
  (b.AsShapedBuffer on_host_shape on_device_shape platform, b)

/-- Observable action of the destructor, in program order: a Deallocate call
through the allocator for one region (with the status it returned; a failed
status is logged, not propagated) or the invocation of on_delete_callback. -/
inductive DtorAction
  | dealloc (device_ordinal : Int) (region : Nat) (ok : Bool)
  | onDelete
  deriving DecidableEq, Repr

/-- Region of a dealloc action, none for the callback action. -/
def DtorAction.deallocRegion : DtorAction → Option Nat
  | .dealloc _ r _ => some r
  | .onDelete => none

/-- Destructor (lines 193-206): CHECK_EQ(external_references_, 0) is a fatal
abort (modelled by none); otherwise, when an allocator is held, Deallocate
every region through it in order, logging and ignoring each status, and
finally invoke on_delete_callback when present. deallocStatus gives the
status the allocator returns for each (ordinal, region) pair. -/
def SharedDeviceBuffer.destructor (b : SharedDeviceBuffer)
    (deallocStatus : Int → Nat → Bool) : Option (List DtorAction) :=
  if b.external_references = 0 then
    some
      ((if b.allocator then
          b.device_memory.map
            (fun r => DtorAction.dealloc b.device_ordinal r
              (deallocStatus b.device_ordinal r))
        else []) ++
       (if b.on_delete_callback then [DtorAction.onDelete] else []))
  else none

/-- Guard state of SharedDeviceBuffer::ScopedUsage: parent records whether
the guard currently holds a non-null buffer reference. -/
structure ScopedUsage where
  parent : Bool
  deriving DecidableEq, Repr

/-- ScopedUsage::Acquire (lines 149-157): CHECK the guard is empty; a null
parent leaves it empty with no hold operation, otherwise store the reference
and call AddUsageHold once. The Nat counts the AddUsageHold calls made. -/
def ScopedUsage.Acquire (g : ScopedUsage) (parent_null : Bool)
    (b : SharedDeviceBuffer) : Option (ScopedUsage × SharedDeviceBuffer × Nat) :=
  if g.parent then none
  else if parent_null then some (g, b, 0)
  else (b.AddUsageHold).map (fun b1 => ({ parent := true }, b1, 1))

/-- ScopedUsage::Release (lines 159-161): move the reference out to the
caller, emptying the guard; no hold operation is performed. The Bool is
whether the returned reference is non-null. -/
def ScopedUsage.Release (g : ScopedUsage) : ScopedUsage × Bool :=
  ({ parent := false }, g.parent)

/-- ScopedUsage::Transfer (lines 163-167): CHECK the guard is empty, then
take over the reference without calling AddUsageHold. -/
def ScopedUsage.Transfer (g : ScopedUsage) (parent_null : Bool) :
    Option ScopedUsage :=
  if g.parent then none else some { parent := parent_null = false }

/-- ScopedUsage::Convert (lines 169-175): CHECK the guard holds a reference,
call ConvertUsageHold on the parent and clear the guard. -/
def ScopedUsage.Convert (g : ScopedUsage) (b : SharedDeviceBuffer)
    (usage_stream : Nat) (event : Nat) (reference_held : Bool) :
    Option (ScopedUsage × SharedDeviceBuffer) :=
  if g.parent then
    (b.ConvertUsageHold usage_stream event reference_held).map
      (fun b1 => ({ parent := false }, b1))
  else none

/-- Destructor of ScopedUsage (lines 143-147): when still holding a
reference, call DropUsageHold once; otherwise do nothing. The Nat counts the
DropUsageHold calls made. -/
def ScopedUsage.destruct (g : ScopedUsage) (b : SharedDeviceBuffer) :
    Option (SharedDeviceBuffer × Nat) :=
  if g.parent then (b.DropUsageHold).map (fun b1 => (b1, 1))
  else some (b, 0)

/-- One call in a hold-protocol call sequence: AddUsageHold, DropUsageHold,
or ConvertUsageHold with its arguments. -/
inductive UsageOp
  | add
  | drop
  | convert (stream : Nat) (event : Nat) (reference_held : Bool)
  deriving DecidableEq, Repr

/-- Execute one hold-protocol call on a buffer; none when it CHECK-fails. -/
def runOp : UsageOp → SharedDeviceBuffer → Option SharedDeviceBuffer
  | .add, b => b.AddUsageHold
  | .drop, b => b.DropUsageHold
  | .convert s e r, b => b.ConvertUsageHold s e r

/-- Execute a sequence of hold-protocol calls left to right; none as soon as
one of them CHECK-fails. -/
def runOps : List UsageOp → SharedDeviceBuffer → Option SharedDeviceBuffer
  | [], b => some b
  | op :: ops, b => (runOp op b).bind (runOps ops)

/-- First entry of a usage_events list for a given stream, in the scan order
of the ConvertUsageHold loop. -/
def findUsageEvent : List StreamAndEvent → Nat → Option StreamAndEvent
  | [], _ => none
  | x :: xs, s => if x.stream = s then some x else findUsageEvent xs s

/-- Buffer with two outstanding usage holds, for same-stream conversion
scenarios. -/
def twoHoldBuffer : SharedDeviceBuffer :=
  { SharedDeviceBuffer.init false 0 [] [] false with usage_holds := 2 }

/-- Buffer with one outstanding usage hold and an existing usage_events entry
for stream 1 with event sequence number 4 and reference_held false. -/
def oneEventBuffer : SharedDeviceBuffer :=
  { SharedDeviceBuffer.init false 0 [] [] false with
    usage_holds := 1,
    usage_events := [{ stream := 1, event := 4, reference_held := false }] }

/-- Concrete buffer for the destructor witness: no outstanding external
references, an allocator, two regions and a delete callback. -/
def dtorBuf : SharedDeviceBuffer :=
  { SharedDeviceBuffer.init true 0 [7, 8] [] true with in_use := false }

/-- Scenario calls for C1: three AddUsageHold, one DropUsageHold, and two
ConvertUsageHold on two distinct streams. -/
def scenarioOps : List UsageOp :=
  [UsageOp.add, UsageOp.add, UsageOp.add, UsageOp.drop,
   UsageOp.convert 1 5 true, UsageOp.convert 2 7 false]

/-- Freshly constructed buffer the C1 scenario starts from. -/
def scenarioInit : SharedDeviceBuffer :=
  SharedDeviceBuffer.init false 0 [] [] false

/-- Boolean check for one ordering of the C1 scenario: whenever the ordering
executes without a CHECK failure, the resulting buffer has zero usage holds
and LockUseAndTransferUsageEvents returns exactly two usage events. -/
def scenarioCheck (ops : List UsageOp) : Bool :=
  match runOps ops scenarioInit with
  | none => true
  | some b1 =>
    decide (b1.usage_holds = 0) &&
    match b1.LockUseAndTransferUsageEvents with
    | .ok evs _ => decide (evs.length = 2)
    | _ => false

/-- Result of running the C1 scenario in its listed order. -/
def scenarioResult : SharedDeviceBuffer :=
  { scenarioInit with
      usage_holds := 0,
      usage_events := [{ stream := 1, event := 5, reference_held := true },
                       { stream := 2, event := 7, reference_held := false }] }

/-! Helper lemmas about the ConvertUsageHold merge loop. -/

/-- The merge loop keeps exactly one entry per merged stream: the entry found
first for the stream afterwards is the superseding triple when the new event
is strictly later, and the untouched old entry otherwise. -/
theorem findUsageEvent_mergeUsageEvent (l : List StreamAndEvent) (s e : Nat)
    (r : Bool) (x : StreamAndEvent) (h : findUsageEvent l s = some x) :
    findUsageEvent (mergeUsageEvent l s e r) s =
      some (if eventLt x.event e then { stream := s, event := e, reference_held := r }
            else x) := by
  induction l with
  | nil => simp [findUsageEvent] at h
  | cons y ys ih =>
    by_cases hy : y.stream = s
    · simp [findUsageEvent, hy] at h
      subst h
      by_cases hlt : eventLt y.event e
      · simp [mergeUsageEvent, hy, hlt, findUsageEvent]
      · simp [mergeUsageEvent, hy, hlt, findUsageEvent]
    · simp [findUsageEvent, hy] at h
      simp [mergeUsageEvent, hy, findUsageEvent, ih h]

/-- When an entry for the stream is already present, the merge loop replaces
in place and never appends, so the length is unchanged. -/
theorem length_mergeUsageEvent (l : List StreamAndEvent) (s e : Nat) (r : Bool)
    (h : (findUsageEvent l s).isSome) :
    (mergeUsageEvent l s e r).length = l.length := by
  induction l with
  | nil => simp [findUsageEvent] at h
  | cons y ys ih =>
    by_cases hy : y.stream = s
    · by_cases hlt : eventLt y.event e
      · simp [mergeUsageEvent, hy, hlt]
      · simp [mergeUsageEvent, hy, hlt]
    · simp [findUsageEvent, hy] at h
      simp [mergeUsageEvent, hy, ih h]

/-- Streams present after a merge are those present before plus the merged
stream. -/
theorem mem_stream_mergeUsageEvent (l : List StreamAndEvent) (s e : Nat)
    (r : Bool) (t : Nat) :
    t ∈ (mergeUsageEvent l s e r).map StreamAndEvent.stream ↔
      t ∈ l.map StreamAndEvent.stream ∨ t = s := by
  induction l with
  | nil => simp [mergeUsageEvent]
  | cons y ys ih =>
    simp only [mergeUsageEvent]
    by_cases hy : y.stream = s
    · rw [if_pos hy]
      by_cases hlt : eventLt y.event e
      · rw [if_pos hlt]
        simp only [List.map_cons, List.mem_cons]
        rw [hy]
        tauto
      · rw [if_neg hlt]
        simp only [List.map_cons, List.mem_cons]
        rw [hy]
        tauto
    · rw [if_neg hy]
      simp only [List.map_cons, List.mem_cons, ih]
      tauto

/-- The merge loop preserves distinctness of the streams of usage_events. -/
theorem nodup_stream_mergeUsageEvent (l : List StreamAndEvent) (s e : Nat)
    (r : Bool) (h : (l.map StreamAndEvent.stream).Nodup) :
    ((mergeUsageEvent l s e r).map StreamAndEvent.stream).Nodup := by
  induction l with
  | nil => simp [mergeUsageEvent]
  | cons y ys ih =>
    simp only [List.map_cons, List.nodup_cons] at h
    simp only [mergeUsageEvent]
    by_cases hy : y.stream = s
    · rw [if_pos hy]
      by_cases hlt : eventLt y.event e
      · rw [if_pos hlt]
        simp only [List.map_cons, List.nodup_cons]
        exact ⟨hy ▸ h.1, h.2⟩
      · rw [if_neg hlt]
        simp only [List.map_cons, List.nodup_cons]
        exact h
    · rw [if_neg hy]
      simp only [List.map_cons, List.nodup_cons]
      refine ⟨fun hmem => ?_, ih h.2⟩
      rcases (mem_stream_mergeUsageEvent ys s e r y.stream).1 hmem with hm | hm
      · exact h.1 hm
      · exact hy hm

/-- Every hold-protocol call preserves distinctness of usage_events streams. -/
theorem runOp_nodup_stream (op : UsageOp) (b b1 : SharedDeviceBuffer)
    (hrun : runOp op b = some b1)
    (h : (b.usage_events.map StreamAndEvent.stream).Nodup) :
    (b1.usage_events.map StreamAndEvent.stream).Nodup := by
  cases op with
  | add =>
    simp only [runOp, SharedDeviceBuffer.AddUsageHold] at hrun
    by_cases hu : b.in_use
    · simp [hu] at hrun
      rw [← hrun]
      exact h
    · simp [hu] at hrun
  | drop =>
    simp only [runOp, SharedDeviceBuffer.DropUsageHold] at hrun
    by_cases hu : b.in_use
    · by_cases hh : 0 < b.usage_holds
      · simp [hu, hh] at hrun
        rw [← hrun]
        exact h
      · simp [hu, hh] at hrun
    · simp [hu] at hrun
  | convert s e r =>
    simp only [runOp, SharedDeviceBuffer.ConvertUsageHold] at hrun
    by_cases hu : b.in_use
    · by_cases hh : 0 < b.usage_holds
      · simp [hu, hh] at hrun
        rw [← hrun]
        exact nodup_stream_mergeUsageEvent _ _ _ _ h
      · simp [hu, hh] at hrun
    · simp [hu] at hrun

/-- Call sequences preserve distinctness of usage_events streams. -/
theorem runOps_nodup_stream (ops : List UsageOp) (b b1 : SharedDeviceBuffer)
    (hrun : runOps ops b = some b1)
    (h : (b.usage_events.map StreamAndEvent.stream).Nodup) :
    (b1.usage_events.map StreamAndEvent.stream).Nodup := by
  induction ops generalizing b with
  | nil =>
    simp [runOps] at hrun
    rw [← hrun]
    exact h
  | cons op ops ih =>
    simp only [runOps, Option.bind_eq_some] at hrun
    obtain ⟨b2, h2, h3⟩ := hrun
    exact ih b2 h3 (runOp_nodup_stream op b b2 h2 h)

/-- Claim C4, counterexample: on the freshly created event, whose record is
unset, sequence_number hits the CHECK(EventHasBeenRecorded()) at line 47 and
aborts (modelled by none); it does not block and then return a number, so the
claim that it does not fail or abort before the record is set is false. -/
theorem C4_counterexample :
    BufferDefinitionEvent.sequence_number
      { event := none, streams_defined_on := [] } = none := by
  rfl

/-- Claim C4, amended: sequence_number does not wait for the record; called
before the record is set it CHECK-fails (a fatal abort), and called after the
record is set it returns the record's sequence number. -/
theorem C4_sequence_number_amended (e : BufferDefinitionEvent) :
    (e.event = none → e.sequence_number = none) ∧
    (∀ q, e.event = some q → e.sequence_number = some q) := by
  constructor
  · intro h
    simp [BufferDefinitionEvent.sequence_number,
      BufferDefinitionEvent.EventHasBeenRecorded, h]
  · intro q h
    simp [BufferDefinitionEvent.sequence_number,
      BufferDefinitionEvent.EventHasBeenRecorded, h]

/-- Witness for C4 amended, at a concrete recorded event. -/
theorem C4_witness :
    BufferDefinitionEvent.sequence_number
      { event := some 5, streams_defined_on := [0] } = some 5 :=
  (C4_sequence_number_amended
    { event := some 5, streams_defined_on := [0] }).2 5 rfl

/-- Claim C6: after the record is set, WaitForEventOnStream is idempotent per
stream. For a stream not yet synchronised, calling it twice issues the
ThenWaitFor instruction exactly once in total and afterwards the synchronised
list contains the stream exactly once; for a stream already in the list, the
call returns immediately, unchanged and with no instruction issued. -/
theorem C6_WaitForEventOnStream_idempotent (e : BufferDefinitionEvent)
    (s q : Nat) (hset : e.event = some q) :
    (s ∉ e.streams_defined_on →
      ∃ e1, e.WaitForEventOnStream s = .done (e1, 1) ∧
        e1.WaitForEventOnStream s = .done (e1, 0) ∧
        e1.streams_defined_on.count s = 1) ∧
    (s ∈ e.streams_defined_on → e.WaitForEventOnStream s = .done (e, 0)) := by
  have hrec : e.EventHasBeenRecorded = true := by
    simp [BufferDefinitionEvent.EventHasBeenRecorded, hset]
  constructor
  · intro hnot
    refine ⟨{ e with streams_defined_on := e.streams_defined_on ++ [s] },
      ?_, ?_, ?_⟩
    · simp [BufferDefinitionEvent.WaitForEventOnStream, hrec, hnot]
    · simp [BufferDefinitionEvent.WaitForEventOnStream,
        BufferDefinitionEvent.EventHasBeenRecorded, hset]
    · simp [List.count_append, List.count_eq_zero_of_not_mem hnot]
  · intro hmem
    simp [BufferDefinitionEvent.WaitForEventOnStream, hrec, hmem]

/-- Witness for C6, at a concrete recorded event and a fresh stream. -/
theorem C6_witness :
    ∃ e1, BufferDefinitionEvent.WaitForEventOnStream
        { event := some 3, streams_defined_on := [0] } 1 = .done (e1, 1) ∧
      e1.WaitForEventOnStream 1 = .done (e1, 0) ∧
      e1.streams_defined_on.count 1 = 1 :=
  (C6_WaitForEventOnStream_idempotent
    { event := some 3, streams_defined_on := [0] } 1 3 rfl).1 (by decide)

/-- Claim C2: when usage_events has an entry for the stream, ConvertUsageHold
replaces it exactly when the new event's sequence number is strictly greater;
converting two holds on the same stream with sequence numbers 5 then 3
retains the sequence-5 event, and converting 3 then 5 also retains the
sequence-5 event. -/
theorem C2_ConvertUsageHold_keeps_later (b : SharedDeviceBuffer) :
    (∀ s e r x, b.in_use = true → 0 < b.usage_holds →
      findUsageEvent b.usage_events s = some x →
      ∃ b1, b.ConvertUsageHold s e r = some b1 ∧
        findUsageEvent b1.usage_events s =
          some (if eventLt x.event e then
                  { stream := s, event := e, reference_held := r }
                else x)) ∧
    (∀ r1 r2 : Bool, ∃ b1 b2,
      twoHoldBuffer.ConvertUsageHold 1 5 r1 = some b1 ∧
      b1.ConvertUsageHold 1 3 r2 = some b2 ∧
      (findUsageEvent b2.usage_events 1).map StreamAndEvent.event = some 5) ∧
    (∀ r1 r2 : Bool, ∃ b1 b2,
      twoHoldBuffer.ConvertUsageHold 1 3 r1 = some b1 ∧
      b1.ConvertUsageHold 1 5 r2 = some b2 ∧
      (findUsageEvent b2.usage_events 1).map StreamAndEvent.event = some 5) := by
  refine ⟨?_, ?_, ?_⟩
  · intro s e r x hu hh hf
    refine ⟨{ b with
                usage_holds := b.usage_holds - 1,
                usage_events := mergeUsageEvent b.usage_events s e r }, ?_, ?_⟩
    · simp [SharedDeviceBuffer.ConvertUsageHold, hu, hh]
    · exact findUsageEvent_mergeUsageEvent b.usage_events s e r x hf
  · exact fun r1 r2 => ⟨_, _, rfl, rfl, rfl⟩
  · exact fun r1 r2 => ⟨_, _, rfl, rfl, rfl⟩

/-- Witness for C2, at a concrete buffer whose stream-1 entry has sequence
number 4 and which receives a strictly later event with number 7. -/
theorem C2_witness :
    ∃ b1, oneEventBuffer.ConvertUsageHold 1 7 true = some b1 ∧
      findUsageEvent b1.usage_events 1 =
        some { stream := 1, event := 7, reference_held := true } := by
  obtain ⟨b1, h1, h2⟩ := (C2_ConvertUsageHold_keeps_later oneEventBuffer).1
    1 7 true { stream := 1, event := 4, reference_held := false }
    rfl (by decide) rfl
  exact ⟨b1, h1, h2.trans (by decide)⟩

/-- Claim C9: when the new event strictly supersedes the existing entry for
the stream, ConvertUsageHold overwrites both the stored event and the stored
reference_held flag with the new call's values; otherwise the old event and
old flag are both kept and the new values are discarded (no entry is added
either way). -/
theorem C9_ConvertUsageHold_reference_held (b : SharedDeviceBuffer)
    (s e : Nat) (r : Bool) (x : StreamAndEvent) (hu : b.in_use = true)
    (hh : 0 < b.usage_holds) (hf : findUsageEvent b.usage_events s = some x) :
    ∃ b1, b.ConvertUsageHold s e r = some b1 ∧
      (eventLt x.event e = true →
        findUsageEvent b1.usage_events s =
          some { stream := s, event := e, reference_held := r }) ∧
      (eventLt x.event e = false →
        findUsageEvent b1.usage_events s = some x) ∧
      b1.usage_events.length = b.usage_events.length := by
  refine ⟨{ b with
              usage_holds := b.usage_holds - 1,
              usage_events := mergeUsageEvent b.usage_events s e r }, ?_, ?_, ?_, ?_⟩
  · simp [SharedDeviceBuffer.ConvertUsageHold, hu, hh]
  · intro hlt
    rw [findUsageEvent_mergeUsageEvent b.usage_events s e r x hf, if_pos hlt]
  · intro hlt
    rw [findUsageEvent_mergeUsageEvent b.usage_events s e r x hf, if_neg]
    rw [hlt]
    exact Bool.false_ne_true
  · exact length_mergeUsageEvent b.usage_events s e r (by rw [hf]; rfl)

/-- Witness for C9, at a concrete buffer whose stream-1 entry has sequence
number 4 and which receives a non-superseding event with number 2. -/
theorem C9_witness :
    ∃ b1, oneEventBuffer.ConvertUsageHold 1 2 true = some b1 ∧
      findUsageEvent b1.usage_events 1 =
        some { stream := 1, event := 4, reference_held := false } ∧
      b1.usage_events.length = oneEventBuffer.usage_events.length := by
  obtain ⟨b1, h1, h2, h3, h4⟩ := C9_ConvertUsageHold_reference_held
    oneEventBuffer 1 2 true { stream := 1, event := 4, reference_held := false }
    rfl (by decide) rfl
  exact ⟨b1, h1, h3 (by decide), h4⟩

/-- Claim C7: starting from any freshly constructed buffer, no sequence of
AddUsageHold, DropUsageHold and ConvertUsageHold calls can make usage_events
contain two entries for the same stream; and the ConvertUsageHold merge loop
for a stream already present updates in place rather than appending. -/
theorem C7_usage_events_streams_distinct :
    (∀ (ops : List UsageOp) (alloc : Bool) (ord : Int) (mem evs : List Nat)
      (cb : Bool) (b1 : SharedDeviceBuffer),
      runOps ops (SharedDeviceBuffer.init alloc ord mem evs cb) = some b1 →
      (b1.usage_events.map StreamAndEvent.stream).Nodup) ∧
    (∀ (l : List StreamAndEvent) (s e : Nat) (r : Bool),
      (findUsageEvent l s).isSome = true →
      (mergeUsageEvent l s e r).length = l.length) := by
  constructor
  · intro ops alloc ord mem evs cb b1 hrun
    exact runOps_nodup_stream ops _ b1 hrun (by simp [SharedDeviceBuffer.init])
  · intro l s e r h
    exact length_mergeUsageEvent l s e r h

/-- Witness for C7, at a concrete call sequence with two conversions on the
same stream. -/
theorem C7_witness :
    ((({ scenarioInit with
           usage_holds := 0,
           usage_events :=
             [{ stream := 1, event := 9, reference_held := false }] } :
         SharedDeviceBuffer).usage_events).map StreamAndEvent.stream).Nodup :=
  C7_usage_events_streams_distinct.1
    [UsageOp.add, UsageOp.add, UsageOp.convert 1 5 true,
      UsageOp.convert 1 9 false] false 0 [] [] false
    { scenarioInit with
        usage_holds := 0,
        usage_events := [{ stream := 1, event := 9, reference_held := false }] }
    (by decide)

/-- Claim C8: the scoped usage guard follows Empty to Held to one of
Released, Converted or Dropped. Acquire on a non-null buffer calls
AddUsageHold exactly once and holds the reference; Acquire with a null buffer
leaves the guard empty with no hold operation; destruction while still held
calls DropUsageHold exactly once; destruction after Release or after Convert
performs no hold operation. -/
theorem C8_scoped_usage_state_machine :
    (∀ b : SharedDeviceBuffer, b.in_use = true →
      ScopedUsage.Acquire { parent := false } false b =
        some ({ parent := true },
          { b with usage_holds := b.usage_holds + 1 }, 1)) ∧
    (∀ b : SharedDeviceBuffer,
      ScopedUsage.Acquire { parent := false } true b =
        some ({ parent := false }, b, 0)) ∧
    (∀ b : SharedDeviceBuffer, b.in_use = true → 0 < b.usage_holds →
      ScopedUsage.destruct { parent := true } b =
        some ({ b with usage_holds := b.usage_holds - 1 }, 1)) ∧
    (∀ (g : ScopedUsage) (b : SharedDeviceBuffer),
      (g.Release.1).parent = false ∧
      ScopedUsage.destruct g.Release.1 b = some (b, 0)) ∧
    (∀ (g : ScopedUsage) (b : SharedDeviceBuffer) (s e : Nat) (r : Bool)
      (g1 : ScopedUsage) (b1 : SharedDeviceBuffer),
      g.Convert b s e r = some (g1, b1) →
      g1.parent = false ∧ ScopedUsage.destruct g1 b1 = some (b1, 0)) := by
  refine ⟨?_, ?_, ?_, ?_, ?_⟩
  · intro b hu
    simp [ScopedUsage.Acquire, SharedDeviceBuffer.AddUsageHold, hu]
  · intro b
    simp [ScopedUsage.Acquire]
  · intro b hu hh
    simp [ScopedUsage.destruct, SharedDeviceBuffer.DropUsageHold, hu, hh]
  · intro g b
    exact ⟨rfl, by simp [ScopedUsage.destruct, ScopedUsage.Release]⟩
  · intro g b s e r g1 b1 h
    by_cases hg : g.parent
    · rcases hc : b.ConvertUsageHold s e r with _ | b2
      · simp [ScopedUsage.Convert, hg, hc] at h
      · unfold ScopedUsage.Convert at h
        rw [if_pos hg, hc] at h
        have h1 := Option.some.inj h
        have hgg : g1 = { parent := false } := (congrArg Prod.fst h1).symm
        subst hgg
        exact ⟨rfl, by simp [ScopedUsage.destruct]⟩
    · simp [ScopedUsage.Convert, hg] at h

/-- Witness for C8, at a concrete in-use buffer with one hold. -/
theorem C8_witness :
    ScopedUsage.Acquire { parent := false } false
        (SharedDeviceBuffer.init false 0 [] [] false) =
      some ({ parent := true },
        { SharedDeviceBuffer.init false 0 [] [] false with usage_holds := 1 }, 1) :=
  C8_scoped_usage_state_machine.1 (SharedDeviceBuffer.init false 0 [] [] false) rfl

/-- Claim C10: the const method AsShapedBuffer leaves the buffer unchanged:
after the call the device memory regions, definition events, usage holds,
external references, usage events and in_use flag all equal their values
before the call, and exporting again from the post-state yields the identical
result. -/
theorem C10_AsShapedBuffer_frame (b : SharedDeviceBuffer)
    (on_host_shape on_device_shape platform : Nat) :
    (b.AsShapedBufferCall on_host_shape on_device_shape platform).2.device_memory
        = b.device_memory ∧
    (b.AsShapedBufferCall on_host_shape on_device_shape platform).2.definition_events
        = b.definition_events ∧
    (b.AsShapedBufferCall on_host_shape on_device_shape platform).2.usage_holds
        = b.usage_holds ∧
    (b.AsShapedBufferCall on_host_shape on_device_shape platform).2.external_references
        = b.external_references ∧
    (b.AsShapedBufferCall on_host_shape on_device_shape platform).2.usage_events
        = b.usage_events ∧
    (b.AsShapedBufferCall on_host_shape on_device_shape platform).2.in_use
        = b.in_use ∧
    ((b.AsShapedBufferCall on_host_shape on_device_shape platform).2.AsShapedBufferCall
        on_host_shape on_device_shape platform).1 =
      (b.AsShapedBufferCall on_host_shape on_device_shape platform).1 :=
  ⟨rfl, rfl, rfl, rfl, rfl, rfl, rfl⟩

/-- A successful extraction copies out exactly the source's region list and
certifies that the subshape count equals its length. -/
theorem extractBuffers_spec (n : Nat) (l ex cl : List Nat)
    (h : extractBuffers n l = some (ex, cl)) : ex = l ∧ n = l.length := by
  induction n generalizing l ex cl with
  | zero =>
    cases l with
    | nil =>
      simp only [extractBuffers, Option.some_inj, Prod.mk.injEq] at h
      exact ⟨h.1.symm, rfl⟩
    | cons x xs => simp [extractBuffers] at h
  | succ n ih =>
    cases l with
    | nil => simp [extractBuffers] at h
    | cons x xs =>
      rcases he : extractBuffers n xs with _ | p
      · rw [extractBuffers, he] at h
        exact Option.noConfusion h
      · rw [extractBuffers, he] at h
        simp only [Option.map_some', Option.some_inj, Prod.mk.injEq] at h
        obtain ⟨hspec1, hspec2⟩ := ih xs p.1 p.2 (by rw [he])
        constructor
        · rw [← h.1, hspec1]
        · rw [List.length_cons, hspec2]

/-- Filling the default slots of a tree with as many regions as there are
slots reproduces exactly the region list. -/
theorem fillSlots_replicate (l : List Nat) :
    fillSlots (List.replicate l.length 0) l = some l := by
  induction l with
  | nil => rfl
  | cons x xs ih => simp [List.replicate_succ, fillSlots, ih]

/-- Claim C3: extracting a shaped source with FromScopedShapedBuffer and then
exporting with AsShapedBuffer under the same host and device shapes yields a
shaped buffer whose ordered region list is identical to the source's region
list before extraction. -/
theorem C3_from_as_round_trip (ssb : ScopedShapedBuffer) (evs : List Nat)
    (b : SharedDeviceBuffer) (ssb1 : ScopedShapedBuffer) (platform : Nat)
    (h : SharedDeviceBuffer.FromScopedShapedBuffer ssb evs = some (b, ssb1)) :
    b.AsShapedBuffer ssb.on_host_shape ssb.on_device_shape platform =
      some { on_host_shape := ssb.on_host_shape,
             on_device_shape := ssb.on_device_shape, platform := platform,
             device_ordinal := ssb.device_ordinal, buffers := ssb.buffers } := by
  rcases he : extractBuffers ssb.on_device_shape ssb.buffers with _ | p
  · rw [SharedDeviceBuffer.FromScopedShapedBuffer, he] at h
    exact Option.noConfusion h
  · rw [SharedDeviceBuffer.FromScopedShapedBuffer, he] at h
    simp only [Option.map_some', Option.some_inj, Prod.mk.injEq] at h
    obtain ⟨hex, hn⟩ := extractBuffers_spec ssb.on_device_shape ssb.buffers
      p.1 p.2 (by rw [he])
    have hb : b = SharedDeviceBuffer.init ssb.memory_allocator
        ssb.device_ordinal p.1 evs false := h.1.symm
    subst hb
    rw [SharedDeviceBuffer.AsShapedBuffer]
    simp only [SharedDeviceBuffer.init, hex, hn]
    rw [fillSlots_replicate]
    rfl

/-- Witness for C3, at a concrete two-region source. -/
theorem C3_witness :
    SharedDeviceBuffer.AsShapedBuffer
        (SharedDeviceBuffer.init true 0 [10, 20] [3] false) 2 2 9 =
      some { on_host_shape := 2, on_device_shape := 2, platform := 9,
             device_ordinal := 0, buffers := [10, 20] } :=
  C3_from_as_round_trip
    { on_host_shape := 2, on_device_shape := 2, memory_allocator := true,
      device_ordinal := 0, buffers := [10, 20] } [3]
    (SharedDeviceBuffer.init true 0 [10, 20] [3] false)
    { on_host_shape := 2, on_device_shape := 2, memory_allocator := true,
      device_ordinal := 0, buffers := [0, 0] } 9 (by decide)

/-- Deallocating a mapped region list through the allocator leaves exactly
the regions, in order, among the dealloc actions. -/
theorem filterMap_dealloc_map (ord : Int) (f : Int → Nat → Bool)
    (l : List Nat) :
    (l.map (fun r => DtorAction.dealloc ord r (f ord r))).filterMap
      DtorAction.deallocRegion = l := by
  induction l with
  | nil => rfl
  | cons x xs ih => simp [DtorAction.deallocRegion, ih]

/-- Claim C5: the destructor aborts exactly when external_references is not
zero; otherwise it completes for every allocator status function (so a failed
Deallocate is never propagated), when an allocator is held the dealloc
actions cover exactly the buffer's regions in order, and the on_delete
callback action, when present, is the final action after all deallocations. -/
theorem C5_destructor_contract (b : SharedDeviceBuffer)
    (f : Int → Nat → Bool) :
    (b.destructor f = none ↔ b.external_references ≠ 0) ∧
    (b.external_references = 0 →
      ∃ tr, b.destructor f = some tr ∧
        (b.allocator = true →
          tr.filterMap DtorAction.deallocRegion = b.device_memory) ∧
        (b.allocator = false →
          tr.filterMap DtorAction.deallocRegion = []) ∧
        (b.on_delete_callback = true →
          ∃ pre, tr = pre ++ [DtorAction.onDelete] ∧
            ∀ a ∈ pre, a ≠ DtorAction.onDelete) ∧
        (b.on_delete_callback = false → DtorAction.onDelete ∉ tr)) := by
  constructor
  · by_cases hext : b.external_references = 0 <;>
      simp [SharedDeviceBuffer.destructor, hext]
  · intro hext
    refine ⟨(if b.allocator = true then
        b.device_memory.map
          (fun r => DtorAction.dealloc b.device_ordinal r (f b.device_ordinal r))
      else []) ++
      (if b.on_delete_callback = true then [DtorAction.onDelete] else []),
      by simp [SharedDeviceBuffer.destructor, hext], ?_, ?_, ?_, ?_⟩
    · intro ha
      rw [if_pos ha]
      rw [List.filterMap_append, filterMap_dealloc_map]
      cases hcb : b.on_delete_callback <;>
        simp [DtorAction.deallocRegion]
    · intro ha
      rw [if_neg (by simp [ha])]
      cases hcb : b.on_delete_callback <;>
        simp [DtorAction.deallocRegion]
    · intro hcb
      rw [if_pos hcb]
      refine ⟨_, rfl, ?_⟩
      intro a hmem
      cases hall : b.allocator
      · rw [if_neg (by simp [hall])] at hmem
        simp at hmem
      · rw [if_pos hall] at hmem
        obtain ⟨r, hr, hra⟩ := List.mem_map.1 hmem
        rw [← hra]
        simp
    · intro hcb
      rw [if_neg (show ¬b.on_delete_callback = true by simp [hcb]),
        List.append_nil]
      intro hmem
      cases hall : b.allocator
      · rw [if_neg (by simp [hall])] at hmem
        simp at hmem
      · rw [if_pos hall] at hmem
        obtain ⟨r, hr, hra⟩ := List.mem_map.1 hmem
        simp at hra

/-- Witness for C5, at a concrete buffer and an allocator whose Deallocate
always fails: destruction still completes, deallocates both regions through
the allocator, and fires the callback last. -/
theorem C5_witness :
    ∃ tr, dtorBuf.destructor (fun _ _ => false) = some tr ∧
      tr.filterMap DtorAction.deallocRegion = [7, 8] ∧
      ∃ pre, tr = pre ++ [DtorAction.onDelete] ∧
        ∀ a ∈ pre, a ≠ DtorAction.onDelete := by
  obtain ⟨tr, h1, h2, h3, h4, h5⟩ :=
    (C5_destructor_contract dtorBuf (fun _ _ => false)).2 rfl
  exact ⟨tr, h1, h2 rfl, h4 rfl⟩

set_option maxRecDepth 100000 in
set_option maxHeartbeats 1000000 in
/-- Claim C1: LockUseAndTransferUsageEvents on an in-use buffer returns (with
ok) only when usage_holds is zero and blocks otherwise; on return it has set
in_use to false, after which AddUsageHold CHECK-fails, and it hands over the
accumulated usage_events, leaving the buffer's own list empty. Moreover, for
every ordering of three AddUsageHold, one DropUsageHold and two
ConvertUsageHold calls on two distinct streams that executes without a CHECK
failure, the buffer ends with zero usage holds and the lock call returns
exactly two usage events. -/
theorem C1_lock_use_and_transfer :
    (∀ (b : SharedDeviceBuffer) (evs : List StreamAndEvent)
      (b1 : SharedDeviceBuffer), b.in_use = true →
      b.LockUseAndTransferUsageEvents = .ok evs b1 →
      b.usage_holds = 0 ∧ b1.in_use = false ∧ b1.AddUsageHold = none ∧
        evs = b.usage_events ∧ b1.usage_events = []) ∧
    (∀ b : SharedDeviceBuffer, b.in_use = true → b.usage_holds ≠ 0 →
      b.LockUseAndTransferUsageEvents = .blocked) ∧
    (∀ (ops : List UsageOp) (b1 : SharedDeviceBuffer), ops.Perm scenarioOps →
      runOps ops scenarioInit = some b1 →
      b1.usage_holds = 0 ∧
        ∃ evs b2, b1.LockUseAndTransferUsageEvents = .ok evs b2 ∧
          evs.length = 2) := by
  refine ⟨?_, ?_, ?_⟩
  · intro b evs b1 hu hlock
    by_cases hh : b.usage_holds = 0
    · rw [SharedDeviceBuffer.LockUseAndTransferUsageEvents, if_pos hu,
        if_pos hh, LockOutcome.ok.injEq] at hlock
      obtain ⟨h1, h2⟩ := hlock
      subst h2
      exact ⟨hh, rfl, by simp [SharedDeviceBuffer.AddUsageHold], h1.symm, rfl⟩
    · rw [SharedDeviceBuffer.LockUseAndTransferUsageEvents, if_pos hu,
        if_neg hh] at hlock
      exact LockOutcome.noConfusion hlock
  · intro b hu hh
    rw [SharedDeviceBuffer.LockUseAndTransferUsageEvents, if_pos hu, if_neg hh]
  · intro ops b1 hperm hrun
    have hmem : ops ∈ scenarioOps.permutations' :=
      List.mem_permutations'.2 hperm
    have hall : ∀ l ∈ scenarioOps.permutations', scenarioCheck l = true := by
      decide
    have h := hall ops hmem
    unfold scenarioCheck at h
    rw [hrun] at h
    simp only [Bool.and_eq_true, decide_eq_true_eq] at h
    refine ⟨h.1, ?_⟩
    rcases hlock : b1.LockUseAndTransferUsageEvents with _ | _ | ⟨evs, b2⟩
    · rw [hlock] at h
      simp at h
    · rw [hlock] at h
      simp at h
    · rw [hlock] at h
      simp only [decide_eq_true_eq] at h
      exact ⟨evs, b2, rfl, h.2⟩

/-- Witness for C1, at the scenario ordering itself. -/
theorem C1_witness :
    scenarioResult.usage_holds = 0 ∧
    ∃ evs b2, scenarioResult.LockUseAndTransferUsageEvents = .ok evs b2 ∧
      evs.length = 2 :=
  C1_lock_use_and_transfer.2.2 scenarioOps scenarioResult
    (List.Perm.refl scenarioOps) (by decide)

end xla
